import Mathlib

/-!
Verification of the two algorithmic cores of this repository:
the read-ahead FIFO sample buffer (`src/util/readaheadsamplebuffer.h`)
and the crossfader gain calculator (`src/engine/enginexfader.h`).

The repository ships only the headers. Inline member functions
(`capacity`, `empty`, `writableLength`, `readableLength`, the copy and
move assignment operators) are embedded directly from the header code.
The out-of-line member functions (`writeToTail`, `readFromHead`,
`dropFromTail`, `adjustCapacity`, `clear`, `swap`, the constructors, and
the whole `EngineXfader` implementation) have no definition in the tree;
those are modelled from the specification, as marked in each doc comment.

Lengths and indices (`SINT` in the C++ code) are modelled as `Nat`:
every valid length in the documented contracts is non-negative, and the
clamping semantics (`min` against the available length) is stated by the
spec directly over non-negative quantities. Audio samples (`CSAMPLE`)
are never inspected arithmetically by the buffer, only copied, so they
are modelled as `Int` values to keep every definition decidable.
-/

namespace Mixxx

/-- A sample value; the buffer only moves samples around, never computes
with them, so an arbitrary decidable type suffices. -/
abbrev Sample := Int

/-- State of `ReadAheadSampleBuffer`: the backing `SampleBuffer` storage
(a fixed-capacity contiguous array, modelled as a list whose length is
the capacity) and the half-open readable `IndexRange`
`[readStart, readEnd)`. Embedded from the data members at
readaheadsamplebuffer.h:110-111. -/
structure ReadAheadSampleBuffer where
  sampleBuffer : List Sample
  readStart : Nat
  readEnd : Nat
deriving DecidableEq

namespace ReadAheadSampleBuffer

/-- Well-formedness of a buffer state: the readable range is a
sub-window of storage, `0 ≤ start ≤ end ≤ capacity` (the `IndexRange`
invariant stated in spec section 3). -/
def WF (b : ReadAheadSampleBuffer) : Prop :=
  b.readStart ≤ b.readEnd ∧ b.readEnd ≤ b.sampleBuffer.length

instance (b : ReadAheadSampleBuffer) : Decidable b.WF := by
  unfold WF; infer_instance

/-- `capacity()`: the size of the backing storage
(readaheadsamplebuffer.h:48-50, inline in the header). -/
def capacity (b : ReadAheadSampleBuffer) : Nat :=
  b.sampleBuffer.length

/-- `readableLength()`: the length of the readable range
(readaheadsamplebuffer.h:85-87, inline in the header). -/
def readableLength (b : ReadAheadSampleBuffer) : Nat :=
  b.readEnd - b.readStart

/-- `empty()`: whether the readable range is empty
(readaheadsamplebuffer.h:61-63, inline in the header). -/
def empty (b : ReadAheadSampleBuffer) : Bool :=
  b.readableLength = 0

/-- `writableLength()`: `capacity() - m_readableRange.end()`
(readaheadsamplebuffer.h:71-73, inline in the header). Only trailing
free space after the readable window counts. -/
def writableLength (b : ReadAheadSampleBuffer) : Nat :=
  b.capacity - b.readEnd

/-- The unread content: the samples of the readable window, in order.
This captures the samples together with their relative offsets within
the window. -/
def readableData (b : ReadAheadSampleBuffer) : List Sample :=
  (b.sampleBuffer.drop b.readStart).take b.readableLength

/-- Modelled from the spec: the constructor
`ReadAheadSampleBuffer(SINT capacity = 0)` is declared at
readaheadsamplebuffer.h:24-25 with no definition in the tree. Spec
section 3: created with an initial capacity and an empty readable
range; storage contents are unspecified, modelled as zeros. -/
def mkBuffer (capacity : Nat) : ReadAheadSampleBuffer :=
  ⟨List.replicate capacity 0, 0, 0⟩

/-- Modelled from the spec: `clear()` is declared at
readaheadsamplebuffer.h:59 with no definition in the tree. Spec
section 4.1: resets the readable range to empty without deallocating
or zeroing storage. -/
def clear (b : ReadAheadSampleBuffer) : ReadAheadSampleBuffer :=
  { b with readStart := 0, readEnd := 0 }

/-- Modelled from the spec: `writeToTail(SINT maxWriteLength)` is
declared at readaheadsamplebuffer.h:82 with no definition in the tree.
Spec section 4.1: reserves `min(maxLen, writableLength())` contiguous
slots immediately after the current unread window, extends the
readable range's end by that actual length, and returns the region.
The returned `WritableSlice` is modelled as the pair
(offset into storage, actual length); reserved space is immediately
readable and the caller fills it in place, so storage is unchanged
here. Returns (new state, (offset, actual length)). -/
def writeToTail (b : ReadAheadSampleBuffer) (maxWriteLength : Nat) :
    ReadAheadSampleBuffer × Nat × Nat :=
  let actualLength := min maxWriteLength b.writableLength
  ({ b with readEnd := b.readEnd + actualLength }, b.readEnd, actualLength)

/-- Modelled from the spec: `readFromHead(SINT maxReadLength)` is
declared at readaheadsamplebuffer.h:96 with no definition in the tree.
Spec section 4.1: returns the next `min(maxLen, readableLength())`
samples at the head of the unread window and advances the range's
start by that actual length. The returned `ReadableSlice` is modelled
by its sample contents. Returns (new state, samples, actual length). -/
def readFromHead (b : ReadAheadSampleBuffer) (maxReadLength : Nat) :
    ReadAheadSampleBuffer × List Sample × Nat :=
  let actualLength := min maxReadLength b.readableLength
  ({ b with readStart := b.readStart + actualLength },
   (b.sampleBuffer.drop b.readStart).take actualLength,
   actualLength)

/-- Modelled from the spec: `dropFromTail(SINT maxDropLength)` is
declared at readaheadsamplebuffer.h:103 with no definition in the tree.
Spec section 4.1: discards up to `min(maxLen, readableLength())`
most-recently-written samples by shrinking the range's end; returns
the count actually dropped. -/
def dropFromTail (b : ReadAheadSampleBuffer) (maxDropLength : Nat) :
    ReadAheadSampleBuffer × Nat :=
  let actualLength := min maxDropLength b.readableLength
  ({ b with readEnd := b.readEnd - actualLength }, actualLength)

/-- Modelled from the spec: the private copy constructor
`ReadAheadSampleBuffer(const ReadAheadSampleBuffer&, SINT capacity)` is
declared at readaheadsamplebuffer.h:106-108 with no definition in the
tree. Spec sections 3-4.1: a deep clone into fresh storage of the given
capacity; the unread content is retained (copied to the front of the
new storage, preserving relative offsets within the readable window);
the rest of the new storage is unspecified, modelled as zeros. -/
def copyWithCapacity (that : ReadAheadSampleBuffer) (capacity : Nat) :
    ReadAheadSampleBuffer :=
  { sampleBuffer :=
      that.readableData ++ List.replicate (capacity - that.readableLength) 0,
    readStart := 0,
    readEnd := that.readableLength }

/-- The public copy constructor delegates to the private one with the
source's own capacity (readaheadsamplebuffer.h:26-29, inline in the
header). -/
def copyConstruct (that : ReadAheadSampleBuffer) : ReadAheadSampleBuffer :=
  copyWithCapacity that that.capacity

/-- Modelled from the spec: `adjustCapacity(SINT capacity)` is declared
at readaheadsamplebuffer.h:56 with no definition in the tree. Header
comment and spec section 4.1: adjusts the capacity taking the current
contents into account, so the resulting capacity may be higher than
requested when shrinking below the unread length; unread samples are
never discarded. Modelled as rebuilding at capacity
`max(requested, readableLength())` via the retaining copy. -/
def adjustCapacity (b : ReadAheadSampleBuffer) (capacity : Nat) :
    ReadAheadSampleBuffer :=
  copyWithCapacity b (max capacity b.readableLength)

/-- Modelled from the spec: `swap` is declared at
readaheadsamplebuffer.h:44-45 with no definition in the tree. Spec
section 4.1: exchanges storage and range between two instances.
Returns the pair (new lhs state, new rhs state). -/
def swapBuffers (lhs rhs : ReadAheadSampleBuffer) :
    ReadAheadSampleBuffer × ReadAheadSampleBuffer :=
  (rhs, lhs)

/-- Move assignment `operator=(ReadAheadSampleBuffer&& that)` is inline
in the header (readaheadsamplebuffer.h:38-42): it swaps `*this` with
`that`. Returns (new target state, state left in the moved-from
source). -/
def moveAssign (target source : ReadAheadSampleBuffer) :
    ReadAheadSampleBuffer × ReadAheadSampleBuffer :=
  swapBuffers target source

/-- Copy assignment `operator=(const ReadAheadSampleBuffer& that)` is
inline in the header (readaheadsamplebuffer.h:33-37): it copy-constructs
an independent temporary from `that` and move-assigns (swaps) it into
`*this`; the temporary, holding the target's former state, is then
destroyed. The resulting target state is the temporary copy. -/
def copyAssign (target source : ReadAheadSampleBuffer) :
    ReadAheadSampleBuffer :=
  (moveAssign target (copyConstruct source)).1

end ReadAheadSampleBuffer

/-- A hot-path call on the buffer, for stating properties of arbitrary
call sequences (spec section 8): a `writeToTail`, `readFromHead` or
`dropFromTail` request with its maximum-length argument. -/
inductive BufferOp where
  | write (maxLength : Nat)
  | read (maxLength : Nat)
  | drop (maxLength : Nat)
deriving DecidableEq

namespace ReadAheadSampleBuffer

/-- Performs one call, returning the new state together with the actual
length the call returned, tagged as written (for `writeToTail`) or
consumed-or-dropped (for `readFromHead`/`dropFromTail`). -/
def applyOp (b : ReadAheadSampleBuffer) : BufferOp → ReadAheadSampleBuffer × Nat × Nat
  | .write n => ((b.writeToTail n).1, (b.writeToTail n).2.2, 0)
  | .read n => ((b.readFromHead n).1, 0, (b.readFromHead n).2.2)
  | .drop n => ((b.dropFromTail n).1, 0, (b.dropFromTail n).2)

/-- Runs a sequence of calls, accumulating (final state, total actual
written length, total actual consumed-or-dropped length). -/
def runOps : ReadAheadSampleBuffer → List BufferOp → ReadAheadSampleBuffer × Nat × Nat
  | b, [] => (b, 0, 0)
  | b, op :: rest =>
    let s := b.applyOp op
    let t := runOps s.1 rest
    (t.1, s.2.1 + t.2.1, s.2.2 + t.2.2)

end ReadAheadSampleBuffer

/-- Curve endpoint `MIXXX_XFADER_ADDITIVE` (enginexfader.h:5). -/
def MIXXX_XFADER_ADDITIVE : ℝ := 0.0

/-- Curve endpoint `MIXXX_XFADER_CONSTPWR` (enginexfader.h:6). -/
def MIXXX_XFADER_CONSTPWR : ℝ := 1.0

namespace EngineXfader

/-- Modelled from the spec: the additive mixing law, the `curve = 0`
endpoint of `EngineXfader::getXfadeGains`, whose implementation is not
in the tree (enginexfader.h:11-13 declares it only). Spec section 4.2:
a direct linear gain split over the symmetric position domain
(total output level varies with position); at the center both decks
get an equal share. -/
noncomputable def additiveGains (p : ℝ) : ℝ × ℝ :=
  ((1 - p) / 2, (1 + p) / 2)

/-- Modelled from the spec: the constant-power mixing law, the
`curve = 1` endpoint of `EngineXfader::getXfadeGains` (implementation
not in the tree). Spec sections 4.2 and 9: the standard equal-power
crossfade law, here the square-root form, whose squared gains sum to
one so perceived loudness stays constant across position. -/
noncomputable def constantPowerGains (p : ℝ) : ℝ × ℝ :=
  (Real.sqrt ((1 - p) / 2), Real.sqrt ((1 + p) / 2))

/-- Modelled from the spec: `EngineXfader::getPowerCalibration(transform)`
is declared at enginexfader.h:10 with no definition in the tree. Spec
section 4.2: a pure function of the transform producing the calibration
coefficient consumed by the gain computation. -/
noncomputable def getPowerCalibration (transform : ℝ) : ℝ :=
  (1 / 2) ^ (1 / transform)

/-- Modelled from the spec: `EngineXfader::getXfadeGains` is declared at
enginexfader.h:11-13 with no definition in the tree. Spec section 4.2:
the transform calibrates the curve's steepness, modelled as scaling the
slider position; `curve` interpolates between the additive law (0) and
the constant-power law (1), with the power calibration coefficient
scaling the constant-power contribution of both decks alike
(center-cut level); `reverse` inverts the position-to-deck mapping,
treating the two decks as swapped. Returns the pair (gain1, gain2)
written through the output parameters. -/
noncomputable def getXfadeGains (xfadePosition transform powerCalibration curve : ℝ)
    (reverse : Bool) : ℝ × ℝ :=
  let p := transform * xfadePosition
  let g1 := (1 - curve) * (additiveGains p).1 +
    curve * powerCalibration * (constantPowerGains p).1
  let g2 := (1 - curve) * (additiveGains p).2 +
    curve * powerCalibration * (constantPowerGains p).2
  if reverse then (g2, g1) else (g1, g2)

end EngineXfader

namespace ReadAheadSampleBuffer

theorem readableData_length (b : ReadAheadSampleBuffer) (hwf : b.WF) :
    b.readableData.length = b.readableLength := by
  obtain ⟨h1, h2⟩ := hwf
  simp [readableData, readableLength]
  omega

theorem copyWithCapacity_capacity (b : ReadAheadSampleBuffer) (c : Nat)
    (hwf : b.WF) (h : b.readableLength ≤ c) :
    (b.copyWithCapacity c).capacity = c := by
  have hlen := b.readableData_length hwf
  simp [copyWithCapacity, capacity]
  omega

theorem copyWithCapacity_readableData (b : ReadAheadSampleBuffer) (c : Nat)
    (hwf : b.WF) :
    (b.copyWithCapacity c).readableData = b.readableData := by
  have hlen := b.readableData_length hwf
  show ((b.readableData ++ List.replicate (c - b.readableLength) 0).drop 0).take
      (b.readableLength - 0) = b.readableData
  rw [List.drop_zero, Nat.sub_zero,
    List.take_append_of_le_length hlen.ge, List.take_of_length_le hlen.le]

theorem copyWithCapacity_readableLength (b : ReadAheadSampleBuffer) (c : Nat) :
    (b.copyWithCapacity c).readableLength = b.readableLength := by
  simp [copyWithCapacity, readableLength]

theorem readableLength_le_capacity (b : ReadAheadSampleBuffer) (hwf : b.WF) :
    b.readableLength ≤ b.capacity := by
  obtain ⟨h1, h2⟩ := hwf
  unfold readableLength capacity
  omega

/-- A concrete well-formed buffer state used by the witnesses below:
capacity 4, readable window [1, 3). -/
def sampleState : ReadAheadSampleBuffer := ⟨[1, 2, 3, 4], 1, 3⟩

/-- C1: for every buffer state and requested capacity `c`,
`adjustCapacity(c)` never discards unread samples: if `c` is smaller
than the current unread length, the resulting capacity is at least the
unread length; if `c` is at least the current capacity, the resulting
capacity is exactly `c`; in both cases every unread sample is preserved
at the same relative offset within the readable window (stated as
equality of the readable-window contents). -/
theorem C1_adjustCapacity_preserves_unread (b : ReadAheadSampleBuffer) (c : Nat)
    (hwf : b.WF) :
    (c < b.readableLength →
      b.readableLength ≤ (b.adjustCapacity c).capacity ∧
      (b.adjustCapacity c).readableData = b.readableData) ∧
    (b.capacity ≤ c →
      (b.adjustCapacity c).capacity = c ∧
      (b.adjustCapacity c).readableData = b.readableData) := by
  have hdata := b.copyWithCapacity_readableData (max c b.readableLength) hwf
  have hcap := b.copyWithCapacity_capacity (max c b.readableLength) hwf
    (le_max_right _ _)
  have hle := b.readableLength_le_capacity hwf
  unfold adjustCapacity
  refine ⟨fun _ => ⟨?_, hdata⟩, fun h => ⟨?_, hdata⟩⟩
  · rw [hcap]
    exact le_max_right _ _
  · rw [hcap]
    omega

/-- Witness for C1 at the concrete state `sampleState` with requested
capacity 1, which is smaller than the unread length 2. -/
theorem C1_adjustCapacity_preserves_unread_witness :
    sampleState.WF ∧
    ((1 < sampleState.readableLength →
      sampleState.readableLength ≤ (sampleState.adjustCapacity 1).capacity ∧
      (sampleState.adjustCapacity 1).readableData = sampleState.readableData) ∧
    (sampleState.capacity ≤ 1 →
      (sampleState.adjustCapacity 1).capacity = 1 ∧
      (sampleState.adjustCapacity 1).readableData = sampleState.readableData)) :=
  ⟨by decide, C1_adjustCapacity_preserves_unread sampleState 1 (by decide)⟩

theorem applyOp_WF (b : ReadAheadSampleBuffer) (op : BufferOp) (hwf : b.WF) :
    (b.applyOp op).1.WF := by
  obtain ⟨h1, h2⟩ := hwf
  cases op <;>
    simp [applyOp, writeToTail, readFromHead, dropFromTail, WF,
      writableLength, readableLength, capacity] <;>
    omega

theorem applyOp_readableLength (b : ReadAheadSampleBuffer) (op : BufferOp)
    (hwf : b.WF) :
    ((b.applyOp op).1.readableLength : ℤ) =
      (b.readableLength : ℤ) + (b.applyOp op).2.1 - (b.applyOp op).2.2 := by
  obtain ⟨h1, h2⟩ := hwf
  cases op <;>
    simp [applyOp, writeToTail, readFromHead, dropFromTail,
      writableLength, readableLength, capacity] <;>
    omega

/-- C2: for every well-formed starting state and every finite sequence
of `writeToTail`/`readFromHead`/`dropFromTail` calls, `readableLength()`
equals the initial readable length plus the cumulative actual lengths
returned by `writeToTail` minus the cumulative actual lengths returned
by `readFromHead` and `dropFromTail`, and this value is never negative.
The sequence is arbitrary, so the equation holds after each call of any
run (every prefix is itself a run). -/
theorem C2_readableLength_conservation (b : ReadAheadSampleBuffer)
    (ops : List BufferOp) (hwf : b.WF) :
    ((runOps b ops).1.readableLength : ℤ) =
      (b.readableLength : ℤ) + (runOps b ops).2.1 - (runOps b ops).2.2 ∧
    0 ≤ ((runOps b ops).1.readableLength : ℤ) := by
  refine ⟨?_, Int.natCast_nonneg _⟩
  induction ops generalizing b with
  | nil => simp [runOps]
  | cons op rest ih =>
    have hstep := b.applyOp_readableLength op hwf
    have hrest := ih (b.applyOp op).1 (b.applyOp_WF op hwf)
    simp only [runOps]
    push_cast
    omega

/-- Witness for C2 at the concrete state `sampleState` with a small
write/read/drop sequence. -/
theorem C2_readableLength_conservation_witness :
    sampleState.WF ∧
    (((runOps sampleState [.write 2, .read 1, .drop 5]).1.readableLength : ℤ) =
      (sampleState.readableLength : ℤ) +
        (runOps sampleState [.write 2, .read 1, .drop 5]).2.1 -
        (runOps sampleState [.write 2, .read 1, .drop 5]).2.2 ∧
    0 ≤ ((runOps sampleState [.write 2, .read 1, .drop 5]).1.readableLength : ℤ)) :=
  ⟨by decide,
   C2_readableLength_conservation sampleState [.write 2, .read 1, .drop 5]
     (by decide)⟩

/-- C3: for every buffer state and `maxWriteLength`,
`writeToTail(maxWriteLength)` reserves exactly
`min(maxWriteLength, writableLength())` slots, the reserved region
starts immediately after the current unread window (its offset is the
readable range's end), the readable range's end is extended by exactly
the actual length while the start and storage are unchanged, and the
returned length never exceeds `maxWriteLength` nor the pre-call
`writableLength()`. -/
theorem C3_writeToTail_spec (b : ReadAheadSampleBuffer) (maxWriteLength : Nat) :
    (b.writeToTail maxWriteLength).2.2 = min maxWriteLength b.writableLength ∧
    (b.writeToTail maxWriteLength).2.1 = b.readEnd ∧
    (b.writeToTail maxWriteLength).1.readEnd =
      b.readEnd + (b.writeToTail maxWriteLength).2.2 ∧
    (b.writeToTail maxWriteLength).1.readStart = b.readStart ∧
    (b.writeToTail maxWriteLength).1.sampleBuffer = b.sampleBuffer ∧
    (b.writeToTail maxWriteLength).2.2 ≤ maxWriteLength ∧
    (b.writeToTail maxWriteLength).2.2 ≤ b.writableLength :=
  ⟨rfl, rfl, rfl, rfl, rfl, Nat.min_le_left _ _, Nat.min_le_right _ _⟩

/-- C4: for every buffer state, `writableLength()` equals `capacity()`
minus the readable range's end, and space freed at the head by reads is
not reclaimed: on a buffer of capacity 10, `writeToTail(6)` reserves 6
leaving `readableLength() == 6` and `writableLength() == 4`;
`readFromHead(4)` consumes 4 leaving `readableLength() == 2` while
`writableLength()` remains 4; a subsequent `writeToTail(10)` returns
actual length 4. -/
theorem C4_writableLength_no_compaction :
    (∀ b : ReadAheadSampleBuffer, b.writableLength = b.capacity - b.readEnd) ∧
    (mkBuffer 10).capacity = 10 ∧
    ((mkBuffer 10).writeToTail 6).2.2 = 6 ∧
    ((mkBuffer 10).writeToTail 6).1.readableLength = 6 ∧
    ((mkBuffer 10).writeToTail 6).1.writableLength = 4 ∧
    (((mkBuffer 10).writeToTail 6).1.readFromHead 4).2.2 = 4 ∧
    (((mkBuffer 10).writeToTail 6).1.readFromHead 4).1.readableLength = 2 ∧
    (((mkBuffer 10).writeToTail 6).1.readFromHead 4).1.writableLength = 4 ∧
    ((((mkBuffer 10).writeToTail 6).1.readFromHead 4).1.writeToTail 10).2.2 = 4 :=
  ⟨fun _ => rfl, by decide, by decide, by decide, by decide, by decide,
   by decide, by decide, by decide⟩

/-- C5: for every well-formed buffer state and `maxReadLength`,
`readFromHead(maxReadLength)` returns a slice of exactly
`min(maxReadLength, readableLength())` samples taken from the head of
the unread window, and advances the readable range's start by exactly
that actual length, leaving the end and the storage unchanged. -/
theorem C5_readFromHead_spec (b : ReadAheadSampleBuffer) (maxReadLength : Nat)
    (hwf : b.WF) :
    (b.readFromHead maxReadLength).2.2 = min maxReadLength b.readableLength ∧
    (b.readFromHead maxReadLength).2.1 =
      b.readableData.take (min maxReadLength b.readableLength) ∧
    (b.readFromHead maxReadLength).2.1.length =
      min maxReadLength b.readableLength ∧
    (b.readFromHead maxReadLength).1.readStart =
      b.readStart + min maxReadLength b.readableLength ∧
    (b.readFromHead maxReadLength).1.readEnd = b.readEnd ∧
    (b.readFromHead maxReadLength).1.sampleBuffer = b.sampleBuffer := by
  obtain ⟨h1, h2⟩ := hwf
  refine ⟨rfl, ?_, ?_, rfl, rfl, rfl⟩
  · show (b.sampleBuffer.drop b.readStart).take _ = _
    rw [readableData, List.take_take, Nat.min_eq_left (Nat.min_le_right _ _)]
  · show ((b.sampleBuffer.drop b.readStart).take _).length = _
    rw [List.length_take, List.length_drop]
    unfold readableLength
    omega

/-- Witness for C5 at the concrete state `sampleState` with
`maxReadLength = 2`. -/
theorem C5_readFromHead_spec_witness :
    sampleState.WF ∧
    ((sampleState.readFromHead 2).2.2 =
      min 2 sampleState.readableLength ∧
    (sampleState.readFromHead 2).2.1 =
      sampleState.readableData.take (min 2 sampleState.readableLength) ∧
    (sampleState.readFromHead 2).2.1.length =
      min 2 sampleState.readableLength ∧
    (sampleState.readFromHead 2).1.readStart =
      sampleState.readStart + min 2 sampleState.readableLength ∧
    (sampleState.readFromHead 2).1.readEnd = sampleState.readEnd ∧
    (sampleState.readFromHead 2).1.sampleBuffer = sampleState.sampleBuffer) :=
  ⟨by decide, C5_readFromHead_spec sampleState 2 (by decide)⟩

/-- C6: for every buffer state and `maxDropLength`,
`dropFromTail(maxDropLength)` returns exactly
`min(maxDropLength, readableLength())`, shrinks the readable range's
end by exactly the returned count (which never exceeds the end), leaves
the start unchanged, and `readableLength()` decreases by exactly the
returned count (which never exceeds the pre-call readable length). -/
theorem C6_dropFromTail_spec (b : ReadAheadSampleBuffer) (maxDropLength : Nat) :
    (b.dropFromTail maxDropLength).2 = min maxDropLength b.readableLength ∧
    (b.dropFromTail maxDropLength).1.readEnd =
      b.readEnd - (b.dropFromTail maxDropLength).2 ∧
    (b.dropFromTail maxDropLength).2 ≤ b.readEnd ∧
    (b.dropFromTail maxDropLength).1.readStart = b.readStart ∧
    (b.dropFromTail maxDropLength).1.readableLength =
      b.readableLength - (b.dropFromTail maxDropLength).2 ∧
    (b.dropFromTail maxDropLength).2 ≤ b.readableLength := by
  refine ⟨rfl, rfl, ?_, rfl, ?_, Nat.min_le_right _ _⟩
  · exact le_trans (Nat.min_le_right _ _) (Nat.sub_le _ _)
  · simp only [dropFromTail, readableLength]
    omega

/-- C7 counterexample: move-assigning does not in general leave the
source empty. With target holding one unread sample and source holding
one unread sample, after `target = std::move(source)` the moved-from
source holds the target's former (non-empty) state:
`empty()` is false and `readableLength()` is 1, not 0. -/
theorem C7_counterexample :
    ¬ ((moveAssign ⟨[5, 6], 0, 1⟩ ⟨[7], 0, 1⟩).2.empty = true ∧
       (moveAssign ⟨[5, 6], 0, 1⟩ ⟨[7], 0, 1⟩).2.readableLength = 0) := by
  decide

/-- C7 amended: move assignment exchanges the two buffers
(`operator=(ReadAheadSampleBuffer&&)` delegates to `swap`,
readaheadsamplebuffer.h:38-42): the target takes the source's former
storage and readable range, while the moved-from source is left holding
the target's former storage and range; in particular the source ends up
empty exactly when the target was empty before the assignment. -/
theorem C7_moveAssign_swaps (a b : ReadAheadSampleBuffer) :
    (moveAssign a b).1 = b ∧
    (moveAssign a b).2 = a ∧
    ((moveAssign a b).2.empty = true ↔ a.empty = true) :=
  ⟨rfl, rfl, Iff.rfl⟩

/-- C10: copy-assigning a buffer to itself is safe: for every
well-formed state, after `a = a` the capacity, readable length and
unread content are unchanged, because copy assignment first constructs
an independent temporary copy of the source and only then exchanges
state with the target (the resulting state is exactly the temporary
copy). -/
theorem C10_self_copy_assign_safe (a : ReadAheadSampleBuffer) (hwf : a.WF) :
    (a.copyAssign a).capacity = a.capacity ∧
    (a.copyAssign a).readableLength = a.readableLength ∧
    (a.copyAssign a).readableData = a.readableData ∧
    a.copyAssign a = a.copyConstruct :=
  ⟨a.copyWithCapacity_capacity a.capacity hwf (a.readableLength_le_capacity hwf),
   a.copyWithCapacity_readableLength a.capacity,
   a.copyWithCapacity_readableData a.capacity hwf,
   rfl⟩

/-- Witness for C10 at the concrete state `sampleState`. -/
theorem C10_self_copy_assign_safe_witness :
    sampleState.WF ∧
    ((sampleState.copyAssign sampleState).capacity = sampleState.capacity ∧
    (sampleState.copyAssign sampleState).readableLength =
      sampleState.readableLength ∧
    (sampleState.copyAssign sampleState).readableData =
      sampleState.readableData ∧
    sampleState.copyAssign sampleState = sampleState.copyConstruct) :=
  ⟨by decide, C10_self_copy_assign_safe sampleState (by decide)⟩

end ReadAheadSampleBuffer

namespace EngineXfader

/-- C8: with `curve = MIXXX_XFADER_CONSTPWR` (the constant-power
endpoint) and the position at the center (0) of the slider's symmetric
domain, `getXfadeGains` writes equal output gains for every transform
and calibration value, in either orientation. -/
theorem C8_constpwr_center_equal_gains (transform powerCalibration : ℝ)
    (reverse : Bool) :
    (getXfadeGains 0 transform powerCalibration
      MIXXX_XFADER_CONSTPWR reverse).1 =
    (getXfadeGains 0 transform powerCalibration
      MIXXX_XFADER_CONSTPWR reverse).2 := by
  cases reverse <;>
    simp [getXfadeGains, additiveGains, constantPowerGains, mul_zero,
      sub_zero, add_zero]

/-- C9 counterexample: the claim that `reverse = true` at position `p`
yields the gains of `reverse = false` at position `−p` exchanged
between the decks fails at `p = 1`, `transform = 1`, calibration 0,
additive curve: there the reversed gains are `(1, 0)` while the
exchanged gains of the mirrored call are `(0, 1)`. -/
theorem C9_counterexample :
    ¬ ((getXfadeGains 1 1 0 MIXXX_XFADER_ADDITIVE true).1 =
         (getXfadeGains (-1) 1 0 MIXXX_XFADER_ADDITIVE false).2 ∧
       (getXfadeGains 1 1 0 MIXXX_XFADER_ADDITIVE true).2 =
         (getXfadeGains (-1) 1 0 MIXXX_XFADER_ADDITIVE false).1) := by
  intro h
  have h1 := h.1
  simp [getXfadeGains, additiveGains, constantPowerGains,
    MIXXX_XFADER_ADDITIVE] at h1
  norm_num at h1

/-- C9 amended: `reverse = true` at position `p` produces the same gain
pair as `reverse = false` at position `−p` (the position-to-deck
mapping is inverted); equivalently, at the same position, `reverse`
exchanges the two output gains between the decks. -/
theorem C9_reverse_mirror (p transform powerCalibration curve : ℝ) :
    getXfadeGains p transform powerCalibration curve true =
      getXfadeGains (-p) transform powerCalibration curve false ∧
    (getXfadeGains p transform powerCalibration curve true).1 =
      (getXfadeGains p transform powerCalibration curve false).2 ∧
    (getXfadeGains p transform powerCalibration curve true).2 =
      (getXfadeGains p transform powerCalibration curve false).1 := by
  have harg1 : 1 - transform * -p = 1 + transform * p := by ring
  have harg2 : 1 + transform * -p = 1 - transform * p := by ring
  refine ⟨?_, rfl, rfl⟩
  show ((1 - curve) * ((1 + transform * p) / 2) +
          curve * powerCalibration * Real.sqrt ((1 + transform * p) / 2),
        (1 - curve) * ((1 - transform * p) / 2) +
          curve * powerCalibration * Real.sqrt ((1 - transform * p) / 2)) =
       ((1 - curve) * ((1 - transform * -p) / 2) +
          curve * powerCalibration * Real.sqrt ((1 - transform * -p) / 2),
        (1 - curve) * ((1 + transform * -p) / 2) +
          curve * powerCalibration * Real.sqrt ((1 + transform * -p) / 2))
  rw [harg1, harg2]

end EngineXfader

end Mixxx
